import Mathlib

/-!
# Verification of the OpenGL STL slicer (`app_qt.py`)

A shallow embedding of the slicing core of `app_qt.py`: the 4×4 matrix
operations used through `QMatrix4x4` (orthographic projection and
translation), mesh loading with Z-bounds extraction, the two-pass
stencil-parity slice rasterizer (`draw` / `renderSlice`), and the
height-stepping layer loop (`paintGL`).  Real arithmetic is modelled with
exact rationals (the Python code uses floats); GL state changes are
recorded both as an explicit command trace (for claims about the pass
structure) and as a per-pixel stencil computation (for claims about the
produced raster).
-/

namespace STLSlicer

/-- `EPSILON = 0.00001` from `app_qt.py` line 13. -/
def EPSILON : ℚ := 1 / 100000

/-- A 3-component vector (vertex position), as exact rationals. -/
structure Vec3 where
  x : ℚ
  y : ℚ
  z : ℚ
deriving DecidableEq, Repr

/-- A 4×4 matrix with rational entries, mirroring `QMatrix4x4`
(row-major entries `mRC`). -/
structure Mat4 where
  m00 : ℚ
  m01 : ℚ
  m02 : ℚ
  m03 : ℚ
  m10 : ℚ
  m11 : ℚ
  m12 : ℚ
  m13 : ℚ
  m20 : ℚ
  m21 : ℚ
  m22 : ℚ
  m23 : ℚ
  m30 : ℚ
  m31 : ℚ
  m32 : ℚ
  m33 : ℚ
deriving DecidableEq, Repr

namespace Mat4

/-- The identity matrix (`QMatrix4x4.setToIdentity`). -/
def id : Mat4 :=
  ⟨1, 0, 0, 0,
   0, 1, 0, 0,
   0, 0, 1, 0,
   0, 0, 0, 1⟩

/-- Matrix multiplication, row times column. -/
def mul (A B : Mat4) : Mat4 :=
  ⟨A.m00 * B.m00 + A.m01 * B.m10 + A.m02 * B.m20 + A.m03 * B.m30,
   A.m00 * B.m01 + A.m01 * B.m11 + A.m02 * B.m21 + A.m03 * B.m31,
   A.m00 * B.m02 + A.m01 * B.m12 + A.m02 * B.m22 + A.m03 * B.m32,
   A.m00 * B.m03 + A.m01 * B.m13 + A.m02 * B.m23 + A.m03 * B.m33,
   A.m10 * B.m00 + A.m11 * B.m10 + A.m12 * B.m20 + A.m13 * B.m30,
   A.m10 * B.m01 + A.m11 * B.m11 + A.m12 * B.m21 + A.m13 * B.m31,
   A.m10 * B.m02 + A.m11 * B.m12 + A.m12 * B.m22 + A.m13 * B.m32,
   A.m10 * B.m03 + A.m11 * B.m13 + A.m12 * B.m23 + A.m13 * B.m33,
   A.m20 * B.m00 + A.m21 * B.m10 + A.m22 * B.m20 + A.m23 * B.m30,
   A.m20 * B.m01 + A.m21 * B.m11 + A.m22 * B.m21 + A.m23 * B.m31,
   A.m20 * B.m02 + A.m21 * B.m12 + A.m22 * B.m22 + A.m23 * B.m32,
   A.m20 * B.m03 + A.m21 * B.m13 + A.m22 * B.m23 + A.m23 * B.m33,
   A.m30 * B.m00 + A.m31 * B.m10 + A.m32 * B.m20 + A.m33 * B.m30,
   A.m30 * B.m01 + A.m31 * B.m11 + A.m32 * B.m21 + A.m33 * B.m31,
   A.m30 * B.m02 + A.m31 * B.m12 + A.m32 * B.m22 + A.m33 * B.m32,
   A.m30 * B.m03 + A.m31 * B.m13 + A.m32 * B.m23 + A.m33 * B.m33⟩

/-- A pure translation matrix. -/
def translateMat (tx ty tz : ℚ) : Mat4 :=
  ⟨1, 0, 0, tx,
   0, 1, 0, ty,
   0, 0, 1, tz,
   0, 0, 0, 1⟩

/-- `QMatrix4x4.translate(tx, ty, tz)`: post-multiplies the current matrix
by a translation. -/
def translate (M : Mat4) (tx ty tz : ℚ) : Mat4 :=
  M.mul (translateMat tx ty tz)

/-- The orthographic projection of `QMatrix4x4.ortho(l, r, b, t, n, f)`
(the standard `glOrtho` matrix), post-multiplied onto the current matrix. -/
def orthoMat (l r b t n f : ℚ) : Mat4 :=
  ⟨2 / (r - l), 0, 0, -((r + l) / (r - l)),
   0, 2 / (t - b), 0, -((t + b) / (t - b)),
   0, 0, -2 / (f - n), -((f + n) / (f - n)),
   0, 0, 0, 1⟩

/-- `QMatrix4x4.ortho` applied to the current matrix. -/
def ortho (M : Mat4) (l r b t n f : ℚ) : Mat4 :=
  M.mul (orthoMat l r b t n f)

/-- Apply a matrix to a position vector with homogeneous coordinate 1,
including the perspective divide (a no-op for the affine matrices this
program builds).  Returns the transformed vector together with the
resulting `w` component, so callers can clip `w ≤ 0`. -/
def apply (M : Mat4) (v : Vec3) : Vec3 × ℚ :=
  let w := M.m30 * v.x + M.m31 * v.y + M.m32 * v.z + M.m33
  (⟨(M.m00 * v.x + M.m01 * v.y + M.m02 * v.z + M.m03) / w,
    (M.m10 * v.x + M.m11 * v.y + M.m12 * v.z + M.m13) / w,
    (M.m20 * v.x + M.m21 * v.y + M.m22 * v.z + M.m23) / w⟩, w)

end Mat4

/-- A triangle: three vertices, as stored per row of `mesh.vectors`. -/
structure Triangle where
  v0 : Vec3
  v1 : Vec3
  v2 : Vec3
deriving DecidableEq, Repr

/-- Axis-aligned bounds of the mesh, as computed in `Window.loadMesh`. -/
structure Bounds where
  xmin : ℚ
  xmax : ℚ
  ymin : ℚ
  ymax : ℚ
  zmin : ℚ
  zmax : ℚ
deriving DecidableEq, Repr

/-- Error outcomes of the pipeline, named after the spec's error taxonomy
(§7).  `invalidMesh` stands for the exception `np.min` raises on an empty
vertex array in `loadMesh`; the code has no code path raising the other
two (which is itself the subject of two claims). -/
inductive SliceError where
  | invalidMesh
  | degenerateVolume
  | exportFailure (layerIndex : ℕ)
deriving DecidableEq, Repr

/-- All vertices of a triangle list, flattened (the order of
`ourMesh.vectors` reshaped as in the VBO upload). -/
def meshVerts (tris : List Triangle) : List Vec3 :=
  tris.flatMap (fun t => [t.v0, t.v1, t.v2])

/-- Fold a rational out of a nonempty list (models `np.min` / `np.max`
over one coordinate).  Returns `none` on the empty list, where numpy
raises `ValueError: zero-size array to reduction operation`. -/
def reduceQ (f : ℚ → ℚ → ℚ) : List ℚ → Option ℚ
  | [] => none
  | a :: rest => some (rest.foldl f a)

/-- `Window.loadMesh`, bounds part: per-axis min/max over all vertices;
fails (an uncaught numpy exception, `InvalidMeshError` in the spec's
taxonomy) when the mesh has no triangles. -/
def loadBounds (tris : List Triangle) : Except SliceError Bounds :=
  let vs := meshVerts tris
  match reduceQ min (vs.map Vec3.x), reduceQ max (vs.map Vec3.x),
        reduceQ min (vs.map Vec3.y), reduceQ max (vs.map Vec3.y),
        reduceQ min (vs.map Vec3.z), reduceQ max (vs.map Vec3.z) with
  | some xmin, some xmax, some ymin, some ymax, some zmin, some zmax =>
      Except.ok ⟨xmin, xmax, ymin, ymax, zmin, zmax⟩
  | _, _, _, _, _, _ => Except.error SliceError.invalidMesh

/-- The run configuration: the mesh, the layer thickness (command-line
argument), the printer's build volume (the external `printer` module,
spec §3 "BuildVolume"), and the on-screen window size used by `draw`'s
viewport. -/
structure Config where
  tris : List Triangle
  layerThickness : ℚ
  printerWidth : ℕ
  printerHeight : ℕ
  printerPixel : ℚ
  winWidth : ℕ
  winHeight : ℕ
deriving Repr

/-- `self.numOfVerts = ourMesh.vectors.shape[0] * 3`. -/
def numOfVertsOf (tris : List Triangle) : ℕ := tris.length * 3

/-- Face selector of `glCullFace`. -/
inductive Face where
  | front
  | back
deriving DecidableEq, Repr

/-- Stencil operations used by the program (`GL_KEEP`, `GL_INCR`,
`GL_DECR`). -/
inductive StencilOpKind where
  | keep
  | incr
  | decr
deriving DecidableEq, Repr

/-- Stencil comparison functions used by the program (`GL_ALWAYS`,
`GL_NOTEQUAL`). -/
inductive StencilFuncKind where
  | always
  | notequal
deriving DecidableEq, Repr

/-- One OpenGL / Qt call issued by `Window.draw` or
`Window.renderSlice`, recorded in order. -/
inductive GLCmd where
  | viewport (w h : ℕ)
  | bindFbo
  | releaseFbo
  | enableStencil
  | disableStencil
  | clearColor (r g b a : ℚ)
  | clear (color stencil : Bool)
  | bindVertVAO
  | bindMaskVAO
  | bindProg
  | releaseProg
  | setUniforms (proj model : Mat4)
  | enableCull
  | disableCull
  | cullFace (f : Face)
  | stencilFunc (k : StencilFuncKind) (ref mask : ℕ)
  | stencilOp (sfail zfail zpass : StencilOpKind)
  | drawArrays (first count : ℕ)
  | saveImage (layerIndex : ℕ)
deriving DecidableEq, Repr

/-- NDC x (or y) coordinate of the center of pixel `i` in a viewport
`w` pixels wide. -/
def pixelCenter (w : ℕ) (i : ℕ) : ℚ := (2 * i + 1) / w - 1

/-- The 2D edge function: twice the signed area of triangle `(a, b, p)`.
Positive when `p` lies to the left of the directed edge `a → b`. -/
def edgeFun (a b p : ℚ × ℚ) : ℚ :=
  (b.1 - a.1) * (p.2 - a.2) - (b.2 - a.2) * (p.1 - a.1)

/-- Transform a vertex to normalized device coordinates; `none` when the
vertex is clipped by `w ≤ 0` (cannot occur for this program's affine
matrices, where `w = 1`). -/
def clipVert (M : Mat4) (v : Vec3) : Option Vec3 :=
  let cw := M.apply v
  if 0 < cw.2 then some cw.1 else none

/-- All three vertices of a triangle in NDC, or `none` if any is
clipped. -/
def triNDC (M : Mat4) (t : Triangle) : Option (Vec3 × Vec3 × Vec3) :=
  match clipVert M t.v0, clipVert M t.v1, clipVert M t.v2 with
  | some a, some b, some c => some (a, b, c)
  | _, _, _ => none

/-- Twice the signed screen-space area of an NDC triangle: positive for
counter-clockwise winding, which is OpenGL's default front face. -/
def signedArea2 (nd : Vec3 × Vec3 × Vec3) : ℚ :=
  edgeFun (nd.1.x, nd.1.y) (nd.2.1.x, nd.2.1.y) (nd.2.2.x, nd.2.2.y)

/-- Whether the rasterizer emits a fragment of this NDC triangle at the
pixel center `(px, py)`: the point lies inside the triangle (consistent
edge-function signs) and the interpolated depth is inside the clip range
`[-1, 1]`. -/
def coversPoint (nd : Vec3 × Vec3 × Vec3) (px py : ℚ) : Bool :=
  let a := nd.1
  let b := nd.2.1
  let c := nd.2.2
  let e0 := edgeFun (b.x, b.y) (c.x, c.y) (px, py)
  let e1 := edgeFun (c.x, c.y) (a.x, a.y) (px, py)
  let e2 := edgeFun (a.x, a.y) (b.x, b.y) (px, py)
  let area := e0 + e1 + e2
  if area = 0 then false
  else if (0 ≤ e0 ∧ 0 ≤ e1 ∧ 0 ≤ e2) ∨ (e0 ≤ 0 ∧ e1 ≤ 0 ∧ e2 ≤ 0) then
    let z := (e0 * a.z + e1 * b.z + e2 * c.z) / area
    decide (-1 ≤ z ∧ z ≤ 1)
  else false

/-- Modelled from the spec: the shader pair `shaders/slice.vert` /
`shaders/slice.frag` is not in the repository snapshot; per the spec's
uniform/vertex contract the vertex stage computes
`proj * model * vec4(position, 1)`.  `fragment` yields
`some isFrontFacing` when the triangle, so transformed, produces a
fragment at `(px, py)`, and `none` otherwise. -/
def fragment (proj model : Mat4) (t : Triangle) (px py : ℚ) : Option Bool :=
  match triNDC (proj.mul model) t with
  | none => none
  | some nd =>
      if coversPoint nd px py then some (decide (0 < signedArea2 nd))
      else none

/-- Number of triangles producing a fragment with the given facing at a
pixel center. -/
def countFrags (tris : List Triangle) (proj model : Mat4)
    (isFront : Bool) (px py : ℚ) : ℕ :=
  tris.countP (fun t => decide (fragment proj model t px py = some isFront))

/-- The stencil value at a pixel after the two culling passes of
`draw` / `renderSlice`: starting from the cleared value 0, the first
pass (`glCullFace(GL_FRONT)`, `GL_INCR`) increments once per rendered
back-facing fragment, clamped at 255 (8-bit stencil, line 35); the
second pass (`glCullFace(GL_BACK)`, `GL_DECR`) decrements once per
rendered front-facing fragment, clamped at 0. -/
def stencilAt (tris : List Triangle) (proj model : Mat4) (px py : ℚ) : ℕ :=
  min (countFrags tris proj model false px py) 255
    - countFrags tris proj model true px py

/-- The two mask triangles of `maskVert` in `loadMesh`: a quad covering
`[0, width*pixel] × [0, height*pixel]` at `z = 0`. -/
def maskTris (cfg : Config) : List Triangle :=
  let w : ℚ := (cfg.printerWidth : ℚ) * cfg.printerPixel
  let h : ℚ := (cfg.printerHeight : ℚ) * cfg.printerPixel
  [⟨⟨0, 0, 0⟩, ⟨w, 0, 0⟩, ⟨w, h, 0⟩⟩,
   ⟨⟨0, 0, 0⟩, ⟨w, h, 0⟩, ⟨0, h, 0⟩⟩]

/-- Whether the mask quad (drawn with culling disabled) produces a
fragment at the pixel center. -/
def maskCovers (cfg : Config) (proj model : Mat4) (px py : ℚ) : Bool :=
  (maskTris cfg).any (fun t => (fragment proj model t px py).isSome)

/-- A single-channel raster, rows of pixel values. -/
abbrev Raster := List (List ℕ)

/-- The raster produced by one slice render: background cleared to
black; the mask pass colors (value 255, the spec's solid=white) exactly
the pixels where the stencil value is nonzero (`GL_NOTEQUAL, 0`) and the
mask quad produces a fragment. -/
def rasterize (cfg : Config) (proj model : Mat4) (vw vh : ℕ) : Raster :=
  (List.range vh).map (fun j =>
    (List.range vw).map (fun i =>
      let px := pixelCenter vw i
      let py := pixelCenter vh j
      if stencilAt cfg.tris proj model px py ≠ 0 ∧
          maskCovers cfg proj model px py then 255 else 0))

/-- The mutable attributes of `Window` relevant to the slicing loop. -/
structure WindowState where
  height : ℚ
  currentLayer : ℕ
  model : Mat4
  proj : Mat4
  totalThickness : ℚ
  numOfVerts : ℕ
  finished : Bool
  fboColor : Raster
deriving DecidableEq, Repr

/-- One produced layer: its index, its raster, and whether
`QImage.save` reported success (a boolean the code discards). -/
structure Layer where
  index : ℕ
  raster : Raster
  savedOk : Bool
deriving DecidableEq, Repr

/-- `Window.draw` (lines 158–187): the on-screen preview pass.  It
translates the model matrix down by one layer thickness (line 166) and
then issues the stencil-parity command sequence against the default
framebuffer with the window-sized viewport.  Returns the updated state
and the command trace. -/
def draw (cfg : Config) (s : WindowState) : WindowState × List GLCmd :=
  let model1 := s.model.translate 0 0 (-cfg.layerThickness)
  ({ s with model := model1 },
   [GLCmd.viewport cfg.winWidth cfg.winHeight,
    GLCmd.enableStencil,
    GLCmd.clearColor 0 0 0 1,
    GLCmd.clear true true,
    GLCmd.bindVertVAO,
    GLCmd.bindProg,
    GLCmd.setUniforms s.proj model1,
    GLCmd.enableCull,
    GLCmd.cullFace Face.front,
    GLCmd.stencilFunc StencilFuncKind.always 0 255,
    GLCmd.stencilOp StencilOpKind.keep StencilOpKind.keep StencilOpKind.incr,
    GLCmd.drawArrays 0 s.numOfVerts,
    GLCmd.cullFace Face.back,
    GLCmd.stencilOp StencilOpKind.keep StencilOpKind.keep StencilOpKind.decr,
    GLCmd.drawArrays 0 s.numOfVerts,
    GLCmd.disableCull,
    GLCmd.clear true false,
    GLCmd.bindMaskVAO,
    GLCmd.stencilFunc StencilFuncKind.notequal 0 255,
    GLCmd.stencilOp StencilOpKind.keep StencilOpKind.keep StencilOpKind.keep,
    GLCmd.drawArrays 0 6,
    GLCmd.disableStencil,
    GLCmd.releaseProg])

/-- `Window.renderSlice` (lines 189–225): the offscreen export pass.
Issues the same stencil-parity sequence into the slice FBO with the
printer-sized viewport — without touching the model matrix — then reads
the framebuffer back and saves it (`exporter` models the boolean result
of `QImage.save`, which the code ignores).  Returns the updated state,
the produced layer, and the command trace. -/
def renderSlice (cfg : Config) (exporter : ℕ → Bool) (s : WindowState) :
    WindowState × Layer × List GLCmd :=
  let raster := rasterize cfg s.proj s.model cfg.printerWidth cfg.printerHeight
  ({ s with fboColor := raster },
   ⟨s.currentLayer, raster, exporter s.currentLayer⟩,
   [GLCmd.bindFbo,
    GLCmd.viewport cfg.printerWidth cfg.printerHeight,
    GLCmd.enableStencil,
    GLCmd.clearColor 0 0 0 1,
    GLCmd.clear true true,
    GLCmd.bindVertVAO,
    GLCmd.bindProg,
    GLCmd.setUniforms s.proj s.model,
    GLCmd.enableCull,
    GLCmd.cullFace Face.front,
    GLCmd.stencilFunc StencilFuncKind.always 0 255,
    GLCmd.stencilOp StencilOpKind.keep StencilOpKind.keep StencilOpKind.incr,
    GLCmd.drawArrays 0 s.numOfVerts,
    GLCmd.cullFace Face.back,
    GLCmd.stencilOp StencilOpKind.keep StencilOpKind.keep StencilOpKind.decr,
    GLCmd.drawArrays 0 s.numOfVerts,
    GLCmd.disableCull,
    GLCmd.clear true false,
    GLCmd.bindMaskVAO,
    GLCmd.stencilFunc StencilFuncKind.notequal 0 255,
    GLCmd.stencilOp StencilOpKind.keep StencilOpKind.keep StencilOpKind.keep,
    GLCmd.drawArrays 0 6,
    GLCmd.disableStencil,
    GLCmd.saveImage s.currentLayer,
    GLCmd.releaseFbo])

/-- `Window.paintGL` (lines 148–156), one invocation by the event loop:
if the height cursor has reached `totalThickness - EPSILON`, the process
exits (`sys.exit()`, modelled by the terminal `finished` flag — a
finished state never changes again); otherwise advance the height and
layer counter, run `draw` then `renderSlice`, and produce that layer. -/
def paintGLStep (cfg : Config) (exporter : ℕ → Bool) (s : WindowState) :
    WindowState × Option Layer :=
  if s.finished then (s, none)
  else if s.totalThickness - EPSILON ≤ s.height then
    ({ s with finished := true }, none)
  else
    let s1 := { s with height := s.height + cfg.layerThickness,
                       currentLayer := s.currentLayer + 1 }
    let s2 := (draw cfg s1).1
    let r := renderSlice cfg exporter s2
    (r.1, some r.2.1)

/-- `Window.initializeGL` together with `Window.loadMesh`: load the mesh
bounds (failing on an empty mesh), derive `totalThickness`, build the
orthographic projection and the initial model transform, and start the
cursor state at height 0, layer 0. -/
def initState (cfg : Config) : Except SliceError WindowState :=
  match loadBounds cfg.tris with
  | Except.error e => Except.error e
  | Except.ok b =>
      let T := b.zmax - b.zmin
      Except.ok
        { height := 0
          currentLayer := 0
          model := Mat4.id.translate 0 0 (T + EPSILON)
          proj := Mat4.id.ortho 0 ((cfg.printerWidth : ℚ) * cfg.printerPixel)
                    0 ((cfg.printerHeight : ℚ) * cfg.printerPixel) (-T) T
          totalThickness := T
          numOfVerts := numOfVertsOf cfg.tris
          finished := false
          fboColor := [] }

/-- The window state after `k` invocations of `paintGL`, starting from
state `s0`. -/
def stateAfter (cfg : Config) (exporter : ℕ → Bool) (s0 : WindowState) :
    ℕ → WindowState
  | 0 => s0
  | k + 1 => (paintGLStep cfg exporter (stateAfter cfg exporter s0 k)).1

/-- The layer produced (if any) by the `(k+1)`-th invocation of
`paintGL`. -/
def layerAt (cfg : Config) (exporter : ℕ → Bool) (s0 : WindowState)
    (k : ℕ) : Option Layer :=
  (paintGLStep cfg exporter (stateAfter cfg exporter s0 k)).2

/-- Number of layers produced by the first `n` invocations of
`paintGL`. -/
def layersUpTo (cfg : Config) (exporter : ℕ → Bool) (s0 : WindowState)
    (n : ℕ) : ℕ :=
  ((List.range n).filterMap (layerAt cfg exporter s0)).length

/-- Extract the sequence of culling render passes from a command trace:
one entry per `glDrawArrays` issued while face culling is enabled,
recording the cull face and the stencil pass-operation in effect.  The
accumulator arguments carry the current cull-enable flag, cull face and
stencil operation (OpenGL defaults: culling disabled, `GL_BACK`,
`GL_KEEP`). -/
def cullPasses : List GLCmd → Bool → Face → StencilOpKind →
    List (Face × StencilOpKind)
  | [], _, _, _ => []
  | GLCmd.enableCull :: r, _, f, o => cullPasses r true f o
  | GLCmd.disableCull :: r, _, f, o => cullPasses r false f o
  | GLCmd.cullFace f :: r, e, _, o => cullPasses r e f o
  | GLCmd.stencilOp _ _ z :: r, e, f, _ => cullPasses r e f z
  | GLCmd.drawArrays _ _ :: r, true, f, o => (f, o) :: cullPasses r true f o
  | _ :: r, e, f, o => cullPasses r e f o

/-- Whether a command belongs to the stencil-parity slice sequence
proper, as opposed to render-target selection (viewport, FBO binding),
the framebuffer readback/save, and the trailing shader-program
release. -/
def sliceSeqCmd : GLCmd → Bool
  | GLCmd.viewport _ _ => false
  | GLCmd.bindFbo => false
  | GLCmd.releaseFbo => false
  | GLCmd.saveImage _ => false
  | GLCmd.releaseProg => false
  | _ => true

namespace Mat4

theorem id_mul (M : Mat4) : Mat4.id.mul M = M := by
  cases M; simp [Mat4.mul, Mat4.id]

theorem mul_assoc (A B C : Mat4) : (A.mul B).mul C = A.mul (B.mul C) := by
  cases A; cases B; cases C
  simp only [Mat4.mul, mk.injEq]
  refine ⟨?_, ?_, ?_, ?_, ?_, ?_, ?_, ?_, ?_, ?_, ?_, ?_, ?_, ?_, ?_, ?_⟩ <;> ring

theorem translateMat_mul_translateMat (a b c d e f : ℚ) :
    (translateMat a b c).mul (translateMat d e f) =
      translateMat (a + d) (b + e) (c + f) := by
  simp only [Mat4.mul, translateMat, mk.injEq]
  norm_num
  refine ⟨by ring, by ring, by ring⟩

theorem mul_translateMat_zero (M : Mat4) :
    M.mul (translateMat 0 0 0) = M := by
  cases M; simp [Mat4.mul, translateMat]

theorem translate_eq (M : Mat4) (tx ty tz : ℚ) :
    M.translate tx ty tz = M.mul (translateMat tx ty tz) := rfl

theorem id_translate (tx ty tz : ℚ) :
    Mat4.id.translate tx ty tz = translateMat tx ty tz := by
  rw [translate_eq, id_mul]

end Mat4

/-- The layer count the loop is headed for:
`⌈(totalThickness - EPSILON) / layerThickness⌉` (0 when the numerator is
nonpositive). -/
def layerTarget (cfg : Config) (s0 : WindowState) : ℕ :=
  Nat.ceil ((s0.totalThickness - EPSILON) / cfg.layerThickness)

theorem paintGLStep_finished (cfg : Config) (ex : ℕ → Bool)
    (s : WindowState) (h : s.finished = true) :
    paintGLStep cfg ex s = (s, none) := by
  simp [paintGLStep, h]

theorem paintGLStep_exit (cfg : Config) (ex : ℕ → Bool) (s : WindowState)
    (h : s.finished = false)
    (hg : s.totalThickness - EPSILON ≤ s.height) :
    paintGLStep cfg ex s = ({ s with finished := true }, none) := by
  simp [paintGLStep, h, hg]

theorem paintGLStep_produce (cfg : Config) (ex : ℕ → Bool)
    (s : WindowState) (h : s.finished = false)
    (hg : ¬ s.totalThickness - EPSILON ≤ s.height) :
    paintGLStep cfg ex s =
      ({ s with
          height := s.height + cfg.layerThickness,
          currentLayer := s.currentLayer + 1,
          model := s.model.translate 0 0 (-cfg.layerThickness),
          fboColor := rasterize cfg s.proj
            (s.model.translate 0 0 (-cfg.layerThickness))
            cfg.printerWidth cfg.printerHeight },
       some ⟨s.currentLayer + 1,
             rasterize cfg s.proj
               (s.model.translate 0 0 (-cfg.layerThickness))
               cfg.printerWidth cfg.printerHeight,
             ex (s.currentLayer + 1)⟩) := by
  simp [paintGLStep, h, hg, draw, renderSlice]

theorem stateAfter_succ (cfg : Config) (ex : ℕ → Bool) (s0 : WindowState)
    (k : ℕ) :
    stateAfter cfg ex s0 (k + 1) =
      (paintGLStep cfg ex (stateAfter cfg ex s0 k)).1 := rfl

/-- Core loop invariant: across any number of `paintGL` calls the
projection, total thickness and vertex count never change, the height
cursor always equals `currentLayer * layerThickness`, and the model
matrix is the initial model post-multiplied by a Z-translation of
`-currentLayer * layerThickness`. -/
theorem stateAfter_core (cfg : Config) (ex : ℕ → Bool) (s0 : WindowState)
    (h0 : s0.height = 0) (h1 : s0.currentLayer = 0) (k : ℕ) :
    (stateAfter cfg ex s0 k).proj = s0.proj ∧
    (stateAfter cfg ex s0 k).totalThickness = s0.totalThickness ∧
    (stateAfter cfg ex s0 k).numOfVerts = s0.numOfVerts ∧
    (stateAfter cfg ex s0 k).height =
      ((stateAfter cfg ex s0 k).currentLayer : ℚ) * cfg.layerThickness ∧
    (stateAfter cfg ex s0 k).model =
      s0.model.mul (Mat4.translateMat 0 0
        (-(((stateAfter cfg ex s0 k).currentLayer : ℚ) *
            cfg.layerThickness))) := by
  induction k with
  | zero =>
      simp [stateAfter, h0, h1, Mat4.mul_translateMat_zero]
  | succ k ih =>
      obtain ⟨hp, htt, hnv, hh, hm⟩ := ih
      rw [stateAfter_succ]
      cases hf : (stateAfter cfg ex s0 k).finished with
      | true =>
          rw [paintGLStep_finished cfg ex _ hf]
          exact ⟨hp, htt, hnv, hh, hm⟩
      | false =>
          by_cases hg : (stateAfter cfg ex s0 k).totalThickness - EPSILON ≤
              (stateAfter cfg ex s0 k).height
          · rw [paintGLStep_exit cfg ex _ hf hg]
            exact ⟨hp, htt, hnv, hh, hm⟩
          · rw [paintGLStep_produce cfg ex _ hf hg]
            refine ⟨hp, htt, hnv, ?_, ?_⟩
            · simp only []
              rw [hh]
              push_cast
              ring
            · simp only []
              rw [Mat4.translate_eq, hm, Mat4.mul_assoc,
                Mat4.translateMat_mul_translateMat]
              push_cast
              ring_nf

theorem lt_layerTarget_iff (cfg : Config) (s0 : WindowState)
    (ht : 0 < cfg.layerThickness) (j : ℕ) :
    (j : ℚ) * cfg.layerThickness < s0.totalThickness - EPSILON ↔
      j < layerTarget cfg s0 := by
  rw [layerTarget, Nat.lt_ceil, lt_div_iff₀ ht]

/-- Counting invariant: for a positive layer thickness, after `k` paint
calls the layer counter is `min k (layerTarget)`, and the run has exited
exactly when `k` exceeds the target. -/
theorem stateAfter_count (cfg : Config) (ex : ℕ → Bool) (s0 : WindowState)
    (h0 : s0.height = 0) (h1 : s0.currentLayer = 0)
    (h2 : s0.finished = false) (ht : 0 < cfg.layerThickness) (k : ℕ) :
    (k ≤ layerTarget cfg s0 →
      (stateAfter cfg ex s0 k).currentLayer = k ∧
      (stateAfter cfg ex s0 k).finished = false) ∧
    (layerTarget cfg s0 < k →
      (stateAfter cfg ex s0 k).currentLayer = layerTarget cfg s0 ∧
      (stateAfter cfg ex s0 k).finished = true) := by
  induction k with
  | zero =>
      refine ⟨fun _ => ⟨h1, h2⟩, fun h => absurd h (by omega)⟩
  | succ k ih =>
      obtain ⟨hle, hgt⟩ := ih
      obtain ⟨-, htt, -, hh, -⟩ := stateAfter_core cfg ex s0 h0 h1 k
      rw [stateAfter_succ]
      by_cases hk : k < layerTarget cfg s0
      · obtain ⟨hcl, hfin⟩ := hle (le_of_lt hk)
        have hguard : ¬ (stateAfter cfg ex s0 k).totalThickness - EPSILON ≤
            (stateAfter cfg ex s0 k).height := by
          rw [htt, hh, hcl, not_le]
          exact (lt_layerTarget_iff cfg s0 ht k).mpr hk
        rw [paintGLStep_produce cfg ex _ hfin hguard]
        constructor
        · intro _
          exact ⟨by simp [hcl], by simp [hfin]⟩
        · intro hlt
          omega
      · push_neg at hk
        by_cases hk' : k = layerTarget cfg s0
        · obtain ⟨hcl, hfin⟩ := hle (le_of_eq hk')
          have hguard : (stateAfter cfg ex s0 k).totalThickness - EPSILON ≤
              (stateAfter cfg ex s0 k).height := by
            rw [htt, hh, hcl]
            have := (lt_layerTarget_iff cfg s0 ht k).not
            rw [hk'] at this ⊢
            exact le_of_not_lt (this.mpr (lt_irrefl _))
          rw [paintGLStep_exit cfg ex _ hfin hguard]
          constructor
          · intro hle'
            omega
          · intro _
            refine ⟨?_, by simp⟩
            show (stateAfter cfg ex s0 k).currentLayer = layerTarget cfg s0
            rw [hcl]
            exact hk'
        · have hlt : layerTarget cfg s0 < k := by omega
          obtain ⟨hcl, hfin⟩ := hgt hlt
          rw [paintGLStep_finished cfg ex _ hfin]
          exact ⟨fun h => by omega, fun _ => ⟨hcl, hfin⟩⟩

/-- A layer is produced by the `(k+1)`-th paint call exactly when
`k < layerTarget`. -/
theorem layerAt_isSome_iff (cfg : Config) (ex : ℕ → Bool)
    (s0 : WindowState) (h0 : s0.height = 0) (h1 : s0.currentLayer = 0)
    (h2 : s0.finished = false) (ht : 0 < cfg.layerThickness) (k : ℕ) :
    (layerAt cfg ex s0 k).isSome = true ↔ k < layerTarget cfg s0 := by
  obtain ⟨hle, hgt⟩ := stateAfter_count cfg ex s0 h0 h1 h2 ht k
  obtain ⟨-, htt, -, hh, -⟩ := stateAfter_core cfg ex s0 h0 h1 k
  unfold layerAt
  by_cases hk : k < layerTarget cfg s0
  · obtain ⟨hcl, hfin⟩ := hle (le_of_lt hk)
    have hguard : ¬ (stateAfter cfg ex s0 k).totalThickness - EPSILON ≤
        (stateAfter cfg ex s0 k).height := by
      rw [htt, hh, hcl, not_le]
      exact (lt_layerTarget_iff cfg s0 ht k).mpr hk
    rw [paintGLStep_produce cfg ex _ hfin hguard]
    simp [hk]
  · push_neg at hk
    by_cases hk' : k = layerTarget cfg s0
    · obtain ⟨hcl, hfin⟩ := hle (le_of_eq hk')
      have hguard : (stateAfter cfg ex s0 k).totalThickness - EPSILON ≤
          (stateAfter cfg ex s0 k).height := by
        rw [htt, hh, hcl]
        have := (lt_layerTarget_iff cfg s0 ht k).not
        rw [hk'] at this ⊢
        exact le_of_not_lt (this.mpr (lt_irrefl _))
      rw [paintGLStep_exit cfg ex _ hfin hguard]
      simp
      omega
    · have hlt : layerTarget cfg s0 < k := by omega
      obtain ⟨hcl, hfin⟩ := hgt hlt
      rw [paintGLStep_finished cfg ex _ hfin]
      simp
      omega

/-- The number of layers produced by the first `n` paint calls is
`min n (layerTarget)`. -/
theorem layersUpTo_eq_min (cfg : Config) (ex : ℕ → Bool)
    (s0 : WindowState) (h0 : s0.height = 0) (h1 : s0.currentLayer = 0)
    (h2 : s0.finished = false) (ht : 0 < cfg.layerThickness) (n : ℕ) :
    layersUpTo cfg ex s0 n = min n (layerTarget cfg s0) := by
  induction n with
  | zero => simp [layersUpTo]
  | succ n ih =>
      unfold layersUpTo at ih ⊢
      rw [List.range_succ, List.filterMap_append, List.length_append, ih]
      by_cases hn : n < layerTarget cfg s0
      · have := (layerAt_isSome_iff cfg ex s0 h0 h1 h2 ht n).mpr hn
        obtain ⟨l, hl⟩ := Option.isSome_iff_exists.mp this
        simp [hl]
        omega
      · have hnone : layerAt cfg ex s0 n = none := by
          have := (layerAt_isSome_iff cfg ex s0 h0 h1 h2 ht n).not
          rw [Option.not_isSome_iff_eq_none] at this
          exact this.mpr hn
        simp [hnone]
        omega

theorem stateAfter_add (cfg : Config) (ex : ℕ → Bool) (s0 : WindowState)
    (a b : ℕ) :
    stateAfter cfg ex s0 (a + b) =
      stateAfter cfg ex (stateAfter cfg ex s0 a) b := by
  induction b with
  | zero => rfl
  | succ b ih => rw [← Nat.add_assoc, stateAfter_succ, ih, stateAfter_succ]

theorem stateAfter_of_finished (cfg : Config) (ex : ℕ → Bool)
    (s : WindowState) (h : s.finished = true) (j : ℕ) :
    stateAfter cfg ex s j = s := by
  induction j with
  | zero => rfl
  | succ j ih => rw [stateAfter_succ, ih, paintGLStep_finished cfg ex s h]

theorem initState_ok_fields (cfg : Config) (s0 : WindowState)
    (h : initState cfg = Except.ok s0) :
    s0.height = 0 ∧ s0.currentLayer = 0 ∧ s0.finished = false ∧
    s0.model = Mat4.translateMat 0 0 (s0.totalThickness + EPSILON) ∧
    s0.proj = Mat4.orthoMat 0 ((cfg.printerWidth : ℚ) * cfg.printerPixel)
      0 ((cfg.printerHeight : ℚ) * cfg.printerPixel)
      (-s0.totalThickness) s0.totalThickness := by
  unfold initState at h
  cases hb : loadBounds cfg.tris with
  | error e => rw [hb] at h; exact absurd h (by simp)
  | ok b =>
      rw [hb] at h
      injection h with h'
      subst h'
      refine ⟨rfl, rfl, rfl, ?_, ?_⟩
      · rw [Mat4.id_translate]
      · rw [Mat4.ortho, Mat4.id_mul]

/-- A trivially succeeding exporter (every `QImage.save` call reports
success). -/
def exportOk : ℕ → Bool := fun _ => true

/-- An always-failing exporter (every `QImage.save` call reports
failure). -/
def exportBad : ℕ → Bool := fun _ => false

/-- A fixture triangle spanning `z ∈ [0, 1]`. -/
def triUnit : Triangle := ⟨⟨0, 0, 0⟩, ⟨1, 0, 0⟩, ⟨0, 1, 1⟩⟩

/-- A fixture configuration: the unit-span triangle, layer thickness
`1/2`, a 1×1-pixel build plate of pitch 1. -/
def cfgUnit : Config := ⟨[triUnit], 1 / 2, 1, 1, 1, 1, 1⟩

/-- The state `initState cfgUnit` produces. -/
def s0Unit : WindowState :=
  { height := 0
    currentLayer := 0
    model := Mat4.id.translate 0 0 (1 + EPSILON)
    proj := Mat4.id.ortho 0 1 0 1 (-1) 1
    totalThickness := 1
    numOfVerts := 3
    finished := false
    fboColor := [] }

/-- A fixture whose total thickness `3/100000` is only three times
EPSILON, sliced with layer thickness `1/300000` (smaller than EPSILON). -/
def cfgTiny : Config :=
  ⟨[⟨⟨0, 0, 0⟩, ⟨1, 0, 0⟩, ⟨0, 1, 3 / 100000⟩⟩], 1 / 300000, 1, 1, 1, 1, 1⟩

/-- A fixture with a completely flat mesh: `zmin = zmax`, so
`totalThickness = 0`. -/
def cfgFlat : Config := ⟨[⟨⟨0, 0, 0⟩, ⟨1, 0, 0⟩, ⟨0, 1, 0⟩⟩], 1, 1, 1, 1, 1, 1⟩

/-- The state `initState cfgFlat` produces. -/
def s0Flat : WindowState :=
  { height := 0
    currentLayer := 0
    model := Mat4.id.translate 0 0 (0 + EPSILON)
    proj := Mat4.id.ortho 0 1 0 1 (-0) 0
    totalThickness := 0
    numOfVerts := 3
    finished := false
    fboColor := [] }

/-- A fixture producing exactly three layers (unit-span triangle,
layer thickness `1/3`). -/
def cfgThree : Config := ⟨[triUnit], 1 / 3, 1, 1, 1, 1, 1⟩

/-- An empty-mesh fixture. -/
def cfgEmpty : Config := ⟨[], 1, 1, 1, 1, 1, 1⟩

instance {ε α : Type} [DecidableEq ε] [DecidableEq α] :
    DecidableEq (Except ε α) := fun x y =>
  match x, y with
  | Except.error a, Except.error b =>
      if h : a = b then Decidable.isTrue (by rw [h])
      else Decidable.isFalse (fun hc => h (by injection hc))
  | Except.ok a, Except.ok b =>
      if h : a = b then Decidable.isTrue (by rw [h])
      else Decidable.isFalse (fun hc => h (by injection hc))
  | Except.error _, Except.ok _ =>
      Decidable.isFalse (fun hc => Except.noConfusion hc)
  | Except.ok _, Except.error _ =>
      Decidable.isFalse (fun hc => Except.noConfusion hc)

/-- Closed form of the orthographic projection applied to a point with
homogeneous coordinate 1. -/
theorem apply_orthoMat (l r b t n f : ℚ) (v : Vec3) :
    (Mat4.orthoMat l r b t n f).apply v =
      (⟨(2 * v.x - (r + l)) / (r - l),
        (2 * v.y - (t + b)) / (t - b),
        (-(2 * v.z) - (f + n)) / (f - n)⟩, 1) := by
  simp only [Mat4.apply, Mat4.orthoMat, Prod.mk.injEq, Vec3.mk.injEq,
    zero_mul, mul_zero, add_zero, zero_add, div_one]
  norm_num
  refine ⟨?_, ?_, ?_⟩ <;> ring

theorem div_mem_unit (a c : ℚ) (hc : 0 < c) (h1 : -c ≤ a) (h2 : a ≤ c) :
    -1 ≤ a / c ∧ a / c ≤ 1 := by
  constructor
  · rw [le_div_iff₀ hc]
    linarith
  · rw [div_le_one hc]
    exact h2

/-- C1 (amended): in the slice rasterization the first pass culls FRONT
faces — so it is the back faces that increment the stencil value — and
the second pass culls BACK faces — so it is the front faces that
decrement — in that order, both in the on-screen `draw` pass and in the
offscreen `renderSlice` pass, for every layer (both are invoked once per
productive `paintGL` step, on the then-current state).  The claim as
frozen has the two cull modes swapped; see the counterexample. -/
theorem stencil_pass_order (cfg : Config) (ex : ℕ → Bool)
    (s : WindowState) :
    cullPasses (draw cfg s).2 false Face.back StencilOpKind.keep =
      [(Face.front, StencilOpKind.incr), (Face.back, StencilOpKind.decr)] ∧
    cullPasses (renderSlice cfg ex s).2.2 false Face.back
        StencilOpKind.keep =
      [(Face.front, StencilOpKind.incr), (Face.back, StencilOpKind.decr)] :=
  ⟨rfl, rfl⟩

/-- C1 counterexample: the pass sequence the code issues (cull front
then increment, cull back then decrement, per `glCullFace(GL_FRONT)` at
line 171 before the `GL_INCR` pass and `glCullFace(GL_BACK)` at line 176
before the `GL_DECR` pass) is not the claimed
"cull back & increment, then cull front & decrement". -/
theorem stencil_pass_order_claim_false :
    cullPasses (draw cfgUnit s0Unit).2 false Face.back StencilOpKind.keep =
      [(Face.front, StencilOpKind.incr), (Face.back, StencilOpKind.decr)] ∧
    cullPasses (draw cfgUnit s0Unit).2 false Face.back StencilOpKind.keep ≠
      [(Face.back, StencilOpKind.incr), (Face.front, StencilOpKind.decr)] := by
  exact ⟨rfl, by decide⟩

/-- C2 (amended): for positive `layerThickness`, the layer loop produces
exactly `⌈(totalThickness - EPSILON) / layerThickness⌉` layers
(`layerTarget`); when `layerThickness ≥ EPSILON` (every realistic
configuration) that count is within one of
`⌈totalThickness / layerThickness⌉` as the claim says — but not for
`layerThickness < EPSILON`, see the counterexample; and once
`currentHeight ≥ totalThickness - EPSILON` holds no further layer is
ever produced. -/
theorem layer_loop_count (cfg : Config) (ex : ℕ → Bool) (s0 : WindowState)
    (h0 : s0.height = 0) (h1 : s0.currentLayer = 0)
    (h2 : s0.finished = false) (ht : 0 < cfg.layerThickness) :
    (∀ n, layersUpTo cfg ex s0 n = min n (layerTarget cfg s0)) ∧
    (EPSILON ≤ cfg.layerThickness →
      layerTarget cfg s0 ≤
        Nat.ceil (s0.totalThickness / cfg.layerThickness) ∧
      Nat.ceil (s0.totalThickness / cfg.layerThickness) ≤
        layerTarget cfg s0 + 1) ∧
    (∀ k m, s0.totalThickness - EPSILON ≤ (stateAfter cfg ex s0 k).height →
      k ≤ m → layerAt cfg ex s0 m = none) := by
  have hε : (0 : ℚ) < EPSILON := by norm_num [EPSILON]
  refine ⟨layersUpTo_eq_min cfg ex s0 h0 h1 h2 ht, ?_, ?_⟩
  · intro hεt
    constructor
    · apply Nat.ceil_le_ceil
      rw [div_le_div_iff₀ ht ht]
      nlinarith
    · by_cases hTε : 0 ≤ s0.totalThickness - EPSILON
      · have e2 : EPSILON / cfg.layerThickness ≤ 1 := (div_le_one ht).mpr hεt
        have h1' : s0.totalThickness / cfg.layerThickness ≤
            (s0.totalThickness - EPSILON) / cfg.layerThickness + 1 := by
          have e1 : s0.totalThickness / cfg.layerThickness =
              (s0.totalThickness - EPSILON) / cfg.layerThickness +
                EPSILON / cfg.layerThickness := by ring
          linarith
        calc Nat.ceil (s0.totalThickness / cfg.layerThickness)
            ≤ Nat.ceil
                ((s0.totalThickness - EPSILON) / cfg.layerThickness + 1) :=
              Nat.ceil_le_ceil h1'
          _ = layerTarget cfg s0 + 1 := by
              rw [layerTarget,
                Nat.ceil_add_one (div_nonneg hTε (le_of_lt ht))]
      · push_neg at hTε
        have hq : s0.totalThickness / cfg.layerThickness ≤ 1 := by
          rw [div_le_one ht]
          linarith
        have : Nat.ceil (s0.totalThickness / cfg.layerThickness) ≤ 1 := by
          have := Nat.ceil_le_ceil (α := ℚ) hq
          simpa using this
        omega
  · intro k m hk hkm
    obtain ⟨-, htt, -, hh, -⟩ := stateAfter_core cfg ex s0 h0 h1 k
    obtain ⟨hle, hgt⟩ := stateAfter_count cfg ex s0 h0 h1 h2 ht k
    have hNm : layerTarget cfg s0 ≤ m := by
      by_cases hkN : k ≤ layerTarget cfg s0
      · obtain ⟨hcl, -⟩ := hle hkN
        rw [hh, hcl] at hk
        have hnot : ¬ ((k : ℚ) * cfg.layerThickness <
            s0.totalThickness - EPSILON) := not_lt.mpr hk
        rw [lt_layerTarget_iff cfg s0 ht k] at hnot
        omega
      · omega
    have hns : ¬ ((layerAt cfg ex s0 m).isSome = true) := by
      rw [layerAt_isSome_iff cfg ex s0 h0 h1 h2 ht m]
      omega
    exact Option.not_isSome_iff_eq_none.mp hns

/-- C2 witness: the amended count theorem evaluated on the unit fixture
(total thickness 1, layer thickness 1/2: the loop produces 2 layers in
the first 5 paint calls). -/
theorem layer_loop_count_witness :
    (0 : ℚ) < cfgUnit.layerThickness ∧
    layersUpTo cfgUnit exportOk s0Unit 5 =
      min 5 (layerTarget cfgUnit s0Unit) :=
  ⟨by norm_num [cfgUnit],
   (layer_loop_count cfgUnit exportOk s0Unit rfl rfl rfl
      (by norm_num [cfgUnit])).1 5⟩

/-- C3: `currentHeight` starts at 0 and `currentHeight =
currentLayer * layerThickness` holds after every paint call; on each
productive step the height grows by exactly `layerThickness` while the
layer counter grows by exactly 1; on a non-productive step both are
untouched (the state is unchanged or only the terminal flag is set); and
neither `draw` nor `renderSlice` ever mutates them (only the `paintGL`
loop body does). -/
theorem height_layer_lockstep (cfg : Config) (ex : ℕ → Bool)
    (s0 : WindowState) (h0 : s0.height = 0) (h1 : s0.currentLayer = 0)
    (k : ℕ) :
    (stateAfter cfg ex s0 k).height =
      ((stateAfter cfg ex s0 k).currentLayer : ℚ) * cfg.layerThickness ∧
    ((layerAt cfg ex s0 k).isSome = true →
      (stateAfter cfg ex s0 (k + 1)).height =
        (stateAfter cfg ex s0 k).height + cfg.layerThickness ∧
      (stateAfter cfg ex s0 (k + 1)).currentLayer =
        (stateAfter cfg ex s0 k).currentLayer + 1) ∧
    ((layerAt cfg ex s0 k).isSome = false →
      (stateAfter cfg ex s0 (k + 1)).height =
        (stateAfter cfg ex s0 k).height ∧
      (stateAfter cfg ex s0 (k + 1)).currentLayer =
        (stateAfter cfg ex s0 k).currentLayer) ∧
    (∀ s : WindowState, (draw cfg s).1.height = s.height ∧
      (draw cfg s).1.currentLayer = s.currentLayer ∧
      (renderSlice cfg ex s).1.height = s.height ∧
      (renderSlice cfg ex s).1.currentLayer = s.currentLayer) := by
  have hlay : layerAt cfg ex s0 k =
      (paintGLStep cfg ex (stateAfter cfg ex s0 k)).2 := rfl
  refine ⟨(stateAfter_core cfg ex s0 h0 h1 k).2.2.2.1, ?_, ?_,
    fun s => ⟨rfl, rfl, rfl, rfl⟩⟩
  · intro hsome
    rw [stateAfter_succ]
    cases hf : (stateAfter cfg ex s0 k).finished with
    | true =>
        rw [hlay, paintGLStep_finished cfg ex _ hf] at hsome
        simp at hsome
    | false =>
        by_cases hg : (stateAfter cfg ex s0 k).totalThickness - EPSILON ≤
            (stateAfter cfg ex s0 k).height
        · rw [hlay, paintGLStep_exit cfg ex _ hf hg] at hsome
          simp at hsome
        · rw [paintGLStep_produce cfg ex _ hf hg]
          exact ⟨rfl, rfl⟩
  · intro hnone
    rw [stateAfter_succ]
    cases hf : (stateAfter cfg ex s0 k).finished with
    | true =>
        rw [paintGLStep_finished cfg ex _ hf]
        exact ⟨rfl, rfl⟩
    | false =>
        by_cases hg : (stateAfter cfg ex s0 k).totalThickness - EPSILON ≤
            (stateAfter cfg ex s0 k).height
        · rw [paintGLStep_exit cfg ex _ hf hg]
          exact ⟨rfl, rfl⟩
        · rw [hlay, paintGLStep_produce cfg ex _ hf hg] at hnone
          simp at hnone

/-- C3 witness: the lockstep invariant evaluated after one paint call on
the unit fixture. -/
theorem height_layer_lockstep_witness :
    s0Unit.height = 0 ∧ s0Unit.currentLayer = 0 ∧
    (stateAfter cfgUnit exportOk s0Unit 1).height =
      ((stateAfter cfgUnit exportOk s0Unit 1).currentLayer : ℚ) *
        cfgUnit.layerThickness :=
  ⟨rfl, rfl,
   (height_layer_lockstep cfgUnit exportOk s0Unit rfl rfl 1).1⟩

/-- C4: after any number of paint calls the model matrix equals the
initial model post-multiplied by a Z-translation of
`-(layersProduced * layerThickness)` — the cumulative per-layer
translation is exactly `layerThickness` per layer; `draw` performs the
single `-layerThickness` translation of each layer (before the slice is
rasterized with those uniforms), and the offscreen slice pass
(`renderSlice`) never translates the model; starting from the state
`initializeGL` builds, the model's Z-offset entry after `N` layers is
`totalThickness + EPSILON - N * layerThickness`. -/
theorem model_translation_per_layer (cfg : Config) (ex : ℕ → Bool)
    (s0 : WindowState) (h0 : s0.height = 0) (h1 : s0.currentLayer = 0)
    (k : ℕ) :
    (stateAfter cfg ex s0 k).model =
      s0.model.mul (Mat4.translateMat 0 0
        (-(((stateAfter cfg ex s0 k).currentLayer : ℚ) *
            cfg.layerThickness))) ∧
    (∀ s : WindowState,
      (draw cfg s).1.model =
        s.model.mul (Mat4.translateMat 0 0 (-cfg.layerThickness)) ∧
      (renderSlice cfg ex s).1.model = s.model ∧
      (renderSlice cfg ex s).2.1.raster =
        rasterize cfg s.proj s.model cfg.printerWidth cfg.printerHeight) ∧
    (initState cfg = Except.ok s0 →
      (stateAfter cfg ex s0 k).model.m23 =
        s0.totalThickness + EPSILON -
          ((stateAfter cfg ex s0 k).currentLayer : ℚ) *
            cfg.layerThickness) := by
  have hmain := (stateAfter_core cfg ex s0 h0 h1 k).2.2.2.2
  refine ⟨hmain, fun s => ⟨rfl, rfl, rfl⟩, ?_⟩
  intro h
  obtain ⟨-, -, -, hmodel, -⟩ := initState_ok_fields cfg s0 h
  rw [hmain, hmodel, Mat4.translateMat_mul_translateMat]
  show s0.totalThickness + EPSILON +
      -(((stateAfter cfg ex s0 k).currentLayer : ℚ) * cfg.layerThickness) = _
  ring

/-- C4 witness: the translation invariant evaluated after two paint
calls on the unit fixture. -/
theorem model_translation_per_layer_witness :
    s0Unit.height = 0 ∧ s0Unit.currentLayer = 0 ∧
    (stateAfter cfgUnit exportOk s0Unit 2).model =
      s0Unit.model.mul (Mat4.translateMat 0 0
        (-(((stateAfter cfgUnit exportOk s0Unit 2).currentLayer : ℚ) *
            cfgUnit.layerThickness))) :=
  ⟨rfl, rfl,
   (model_translation_per_layer cfgUnit exportOk s0Unit rfl rfl 2).1⟩

/-- C5: a mesh with zero triangles makes `loadMesh` fail (numpy's
reduction over an empty vertex array raises — the spec's
`InvalidMeshError`) before any state, and hence any layer, exists; a
vertex count that is not a multiple of three is unrepresentable in the
code, which stores whole triangles (`vectors.shape[0] * 3` vertices), so
the triangle-count trigger is the only reachable one. -/
theorem empty_mesh_fails (cfg : Config) (h : cfg.tris = []) :
    initState cfg = Except.error SliceError.invalidMesh ∧
    ∀ tris : List Triangle, numOfVertsOf tris % 3 = 0 := by
  constructor
  · have hb : loadBounds cfg.tris = Except.error SliceError.invalidMesh := by
      rw [h]
      rfl
    unfold initState
    rw [hb]
  · intro tris
    simp [numOfVertsOf, Nat.mul_mod_left]

/-- C5 witness: the empty-mesh fixture fails with the invalid-mesh
error at initialization. -/
theorem empty_mesh_fails_witness :
    cfgEmpty.tris = [] ∧
    initState cfgEmpty = Except.error SliceError.invalidMesh :=
  ⟨rfl, (empty_mesh_fails cfgEmpty rfl).1⟩

/-- C6 (amended): when `totalThickness ≤ 0` the program produces no
layer — but it does not fail with a `DegenerateVolumeError` (no such
check exists in the code): initialization succeeds and the very first
`paintGL` call takes the `sys.exit()` branch, a normal termination. -/
theorem flat_volume_exits_without_error (cfg : Config) (ex : ℕ → Bool)
    (s0 : WindowState) (h : initState cfg = Except.ok s0)
    (hT : s0.totalThickness ≤ 0) :
    (stateAfter cfg ex s0 1).finished = true ∧
    (∀ k, layerAt cfg ex s0 k = none) ∧
    (∀ n, layersUpTo cfg ex s0 n = 0) := by
  obtain ⟨h0, h1, h2, -, -⟩ := initState_ok_fields cfg s0 h
  have hε : (0 : ℚ) < EPSILON := by norm_num [EPSILON]
  have hguard : s0.totalThickness - EPSILON ≤ s0.height := by
    rw [h0]
    linarith
  have hs1 : stateAfter cfg ex s0 1 = { s0 with finished := true } := by
    have he : stateAfter cfg ex s0 1 = (paintGLStep cfg ex s0).1 := rfl
    rw [he, paintGLStep_exit cfg ex s0 h2 hguard]
  have hnone : ∀ k, layerAt cfg ex s0 k = none := by
    intro k
    cases k with
    | zero =>
        show (paintGLStep cfg ex s0).2 = none
        rw [paintGLStep_exit cfg ex s0 h2 hguard]
    | succ j =>
        show (paintGLStep cfg ex (stateAfter cfg ex s0 (j + 1))).2 = none
        have hstay : stateAfter cfg ex s0 (j + 1) =
            { s0 with finished := true } := by
          rw [show j + 1 = 1 + j by omega, stateAfter_add, hs1,
            stateAfter_of_finished cfg ex _ rfl]
        rw [hstay, paintGLStep_finished cfg ex _ rfl]
  refine ⟨by rw [hs1], hnone, ?_⟩
  intro n
  unfold layersUpTo
  rw [List.filterMap_eq_nil_iff.mpr (fun a _ => hnone a)]
  rfl

/-- C8: `initializeGL` builds (once per session) an orthographic
projection whose application maps every point of
`[0, width*pixelSize] × [0, height*pixelSize] ×
[-totalThickness, totalThickness]` into the canonical clip volume
`[-1, 1]³` (with homogeneous `w = 1`), and an initial model transform
that is exactly a Z-translation by `totalThickness + EPSILON`, with
`EPSILON = 1e-5`. -/
theorem projection_setup (cfg : Config) (s0 : WindowState)
    (h : initState cfg = Except.ok s0)
    (hW : 0 < (cfg.printerWidth : ℚ) * cfg.printerPixel)
    (hH : 0 < (cfg.printerHeight : ℚ) * cfg.printerPixel)
    (hT : 0 < s0.totalThickness) (v : Vec3)
    (hx0 : 0 ≤ v.x)
    (hx1 : v.x ≤ (cfg.printerWidth : ℚ) * cfg.printerPixel)
    (hy0 : 0 ≤ v.y)
    (hy1 : v.y ≤ (cfg.printerHeight : ℚ) * cfg.printerPixel)
    (hz0 : -s0.totalThickness ≤ v.z) (hz1 : v.z ≤ s0.totalThickness) :
    (-1 ≤ (s0.proj.apply v).1.x ∧ (s0.proj.apply v).1.x ≤ 1) ∧
    (-1 ≤ (s0.proj.apply v).1.y ∧ (s0.proj.apply v).1.y ≤ 1) ∧
    (-1 ≤ (s0.proj.apply v).1.z ∧ (s0.proj.apply v).1.z ≤ 1) ∧
    (s0.proj.apply v).2 = 1 ∧
    s0.model = Mat4.translateMat 0 0 (s0.totalThickness + EPSILON) ∧
    s0.model.m23 = s0.totalThickness + EPSILON ∧
    EPSILON = 1 / 100000 := by
  obtain ⟨-, -, -, hmodel, hproj⟩ := initState_ok_fields cfg s0 h
  have hx : (s0.proj.apply v).1.x =
      (2 * v.x - (cfg.printerWidth : ℚ) * cfg.printerPixel) /
        ((cfg.printerWidth : ℚ) * cfg.printerPixel) := by
    rw [hproj, apply_orthoMat]
    norm_num
  have hy : (s0.proj.apply v).1.y =
      (2 * v.y - (cfg.printerHeight : ℚ) * cfg.printerPixel) /
        ((cfg.printerHeight : ℚ) * cfg.printerPixel) := by
    rw [hproj, apply_orthoMat]
    norm_num
  have hz : (s0.proj.apply v).1.z =
      (-(2 * v.z)) / (s0.totalThickness + s0.totalThickness) := by
    rw [hproj, apply_orthoMat]
    norm_num
  have hw : (s0.proj.apply v).2 = 1 := by
    rw [hproj, apply_orthoMat]
  refine ⟨?_, ?_, ?_, hw, hmodel, ?_, rfl⟩
  · rw [hx]
    exact div_mem_unit _ _ hW (by linarith) (by linarith)
  · rw [hy]
    exact div_mem_unit _ _ hH (by linarith) (by linarith)
  · rw [hz]
    exact div_mem_unit _ _ (by linarith) (by linarith) (by linarith)
  · rw [hmodel]
    rfl

/-- C9: invoking the slice rasterization twice at the same
model-transform state (no intervening translation) yields a bit-identical
raster — indeed an identical layer record — because `renderSlice` reads
the transform state but mutates none of it (only the offscreen
framebuffer content, which it fully clears and rewrites). -/
theorem renderSlice_idempotent (cfg : Config) (ex : ℕ → Bool)
    (s : WindowState) :
    (renderSlice cfg ex ((renderSlice cfg ex s).1)).2.1.raster =
      (renderSlice cfg ex s).2.1.raster ∧
    (renderSlice cfg ex ((renderSlice cfg ex s).1)).2.1 =
      (renderSlice cfg ex s).2.1 ∧
    ((renderSlice cfg ex s).1).model = s.model ∧
    ((renderSlice cfg ex s).1).height = s.height ∧
    ((renderSlice cfg ex s).1).proj = s.proj ∧
    ((renderSlice cfg ex s).1).currentLayer = s.currentLayer :=
  ⟨rfl, rfl, rfl, rfl, rfl, rfl⟩

/-- C10: within one layer, the on-screen `draw` pass and the offscreen
`renderSlice` pass issue the same stencil-parity command sequence —
clear of color and stencil, front-cull `GL_INCR` pass, back-cull
`GL_DECR` pass, color-only clear, `GL_NOTEQUAL 0` mask quad with
stencil writes `GL_KEEP` — with identical projection and model uniform
values (`renderSlice` runs on the state `draw` just translated),
differing only in render target selection, viewport, the readback/save,
and the trailing shader-program release; and the saved raster is
computed from exactly those shared uniforms. -/
theorem draw_renderSlice_same_sequence (cfg : Config) (ex : ℕ → Bool)
    (s : WindowState) :
    (draw cfg s).2.filter sliceSeqCmd =
      (renderSlice cfg ex ((draw cfg s).1)).2.2.filter sliceSeqCmd ∧
    (renderSlice cfg ex ((draw cfg s).1)).2.1.raster =
      rasterize cfg s.proj ((draw cfg s).1.model)
        cfg.printerWidth cfg.printerHeight :=
  ⟨rfl, rfl⟩

section
unseal Rat.add Rat.mul Rat.inv Rat.sub

/-- C7: the code ignores the boolean result of `QImage.save`
(line 223), so an export failure does not terminate the run: the loop
state and the produced layers' indices and rasters are identical for any
two exporters, and on the three-layer fixture an exporter that fails on
every save still sees all three layers produced — layer 1's save
reports failure, yet layers 2 and 3 follow.  This contradicts the
claim's (and the spec's) fatal-abort behaviour. -/
theorem export_failure_ignored :
    (∀ (cfg : Config) (ex ex' : ℕ → Bool) (s0 : WindowState) (k : ℕ),
      stateAfter cfg ex s0 k = stateAfter cfg ex' s0 k ∧
      (layerAt cfg ex s0 k).map (fun l => (l.index, l.raster)) =
        (layerAt cfg ex' s0 k).map (fun l => (l.index, l.raster))) ∧
    (initState cfgThree).toOption.map
      (fun s0 => layersUpTo cfgThree exportBad s0 5) = some 3 ∧
    (initState cfgThree).toOption.map (fun s0 =>
      (layerAt cfgThree exportBad s0 0).map
        (fun l => (l.index, l.savedOk))) = some (some (1, false)) := by
  have hstep : ∀ (cfg : Config) (ex ex' : ℕ → Bool) (s : WindowState),
      (paintGLStep cfg ex s).1 = (paintGLStep cfg ex' s).1 ∧
      ((paintGLStep cfg ex s).2).map (fun l => (l.index, l.raster)) =
        ((paintGLStep cfg ex' s).2).map (fun l => (l.index, l.raster)) := by
    intro cfg ex ex' s
    unfold paintGLStep
    split_ifs <;> simp [draw, renderSlice]
  refine ⟨?_, by decide, by decide⟩
  intro cfg ex ex' s0 k
  have hstates : ∀ j, stateAfter cfg ex s0 j = stateAfter cfg ex' s0 j := by
    intro j
    induction j with
    | zero => rfl
    | succ j ih =>
        rw [stateAfter_succ, stateAfter_succ, ih]
        exact (hstep cfg ex ex' _).1
  refine ⟨hstates k, ?_⟩
  unfold layerAt
  rw [hstates k]
  exact (hstep cfg ex ex' _).2

/-- C2 counterexample: with `layerThickness = 1/300000` (positive, but
smaller than EPSILON) and `totalThickness = 3/100000`, the run exits
after producing 6 layers, while `⌈totalThickness / layerThickness⌉ = 9`
— off by 3, not "within one". -/
theorem layer_count_claim_false :
    (0 : ℚ) < cfgTiny.layerThickness ∧
    (initState cfgTiny).toOption.map
      (fun s0 => s0.totalThickness) = some (3 / 100000) ∧
    (initState cfgTiny).toOption.map (fun s0 =>
      ((stateAfter cfgTiny exportOk s0 7).finished,
       (stateAfter cfgTiny exportOk s0 7).currentLayer)) =
      some (true, 6) ∧
    Nat.ceil ((3 : ℚ) / 100000 / (1 / 300000)) = 9 ∧
    ¬ (Nat.ceil ((3 : ℚ) / 100000 / (1 / 300000)) ≤ 6 + 1) := by
  refine ⟨by decide, by decide, by decide, by decide, by decide⟩

/-- C6 counterexample: on a mesh with flat Z-bounds
(`totalThickness = 0`) initialization succeeds — no
`DegenerateVolumeError` is raised anywhere — and the run simply exits on
the first paint call with zero layers produced. -/
theorem degenerate_volume_claim_false :
    (initState cfgFlat).toOption.map (fun s0 =>
      (s0.totalThickness, (stateAfter cfgFlat exportOk s0 1).finished,
       layersUpTo cfgFlat exportOk s0 5)) = some (0, true, 0) ∧
    initState cfgFlat ≠ Except.error SliceError.degenerateVolume := by
  refine ⟨by decide, by decide⟩

/-- C6 witness: the amended no-layers-on-flat-volume theorem evaluated
on the flat fixture. -/
theorem flat_volume_witness :
    initState cfgFlat = Except.ok s0Flat ∧ s0Flat.totalThickness ≤ 0 ∧
    (stateAfter cfgFlat exportOk s0Flat 1).finished = true :=
  ⟨by decide, by decide,
   (flat_volume_exits_without_error cfgFlat exportOk s0Flat
      (by decide) (by decide)).1⟩

/-- C8 witness: the projection theorem evaluated on the unit fixture at
the box midpoint `(1/2, 1/2, 0)`. -/
theorem projection_setup_witness :
    initState cfgUnit = Except.ok s0Unit ∧
    (0 : ℚ) < s0Unit.totalThickness ∧
    (-1 ≤ (s0Unit.proj.apply ⟨1/2, 1/2, 0⟩).1.x ∧
      (s0Unit.proj.apply ⟨1/2, 1/2, 0⟩).1.x ≤ 1) :=
  ⟨by decide, by decide,
   (projection_setup cfgUnit s0Unit (by decide) (by decide) (by decide)
      (by decide) ⟨1/2, 1/2, 0⟩ (by decide) (by decide) (by decide)
      (by decide) (by decide) (by decide)).1⟩

end

end STLSlicer
